import Mathlib

set_option maxRecDepth 100000

/-!
Verification development for the Naphome-Korvo1 smart-speaker firmware.

Each section shallowly embeds one part of the C source:
* `EspErr` mirrors the `esp_err_t` codes the firmware returns.
* `ActionManager` embeds `src/main/action_manager.c` (device state, LED
  patterns, the tagged-variant action dispatcher).
* `WakeDetector` embeds the energy-gated detection loop of
  `src/components/openwakeword/openwakeword_esp32.cpp` (`wake_word_task`).
* `GeminiApi` embeds the response-buffer sizing, retry structure and
  response extraction of `src/components/gemini/gemini_api.c`.
* `VoiceSession` embeds `process_voice_command` of `src/main/voice_assistant.c`
  and the wake callback `on_wake_word_detected` of
  `src/main/wake_word_manager.c` as call traces.
* `TtsStreaming` embeds the response handling of `gemini_tts_streaming`.
* `TlsLock` embeds, as operation sequences, the lock discipline of the three
  HTTPS client sites (`gemini_api.c`, `environmental_report.c`,
  `sensor_manager.c`).

Floating-point quantities of the source (volumes, LED intensities, RMS
thresholds) are modelled over `ℚ`; machine integers are `Int`/`Nat` with
explicit reductions where C performs conversions.
-/

namespace Naphome

/-- The `esp_err_t` codes used by the embedded functions. -/
inductive EspErr
  | ok            -- ESP_OK
  | fail          -- ESP_FAIL
  | noMem         -- ESP_ERR_NO_MEM
  | invalidArg    -- ESP_ERR_INVALID_ARG
  | invalidState  -- ESP_ERR_INVALID_STATE
  | notFound      -- ESP_ERR_NOT_FOUND
  | timeout       -- ESP_ERR_TIMEOUT
  deriving DecidableEq, Repr

/-! ## Action manager (src/main/action_manager.c) -/

/-- One pixel of the addressable strip, as passed to `led_strip_set_pixel`. -/
structure Rgb where
  r : Nat
  g : Nat
  b : Nat
  deriving DecidableEq, Repr

/-- `led_strip_clear` leaves every pixel dark. -/
def rgb_off : Rgb := ⟨0, 0, 0⟩

/-- `device_state_t` (action_manager.h): the process-wide device state.
`current_volume` and `current_led_intensity` are C floats, modelled over ℚ. -/
structure DeviceState where
  paused : Bool
  current_volume : ℚ
  current_led_intensity : ℚ
  audio_playing : Bool
  deriving DecidableEq, Repr

/-- Parsed form of the JSON text held in `action.data.led.pattern_data` and in
`s_paused_led_pattern` (action_manager.c lines 91-97): either a
`\x7b"color":[r,g,b]\x7d` object (components already extracted as C `int`s,
missing or non-numeric components defaulting to 0, lines 101-109), a
`\x7b"pattern": name\x7d` object, or an object with neither field. -/
inductive LedPayload
  | color (r g b : Int)
  | pattern (name : String)
  | empty
  deriving DecidableEq, Repr

/-- Implicit C conversion `int → uint8_t` at the `apply_led_intensity` call
sites (lines 113-116): reduction modulo 256. -/
def int_to_uint8 (n : Int) : Nat := (n % 256).toNat

/-- `apply_led_intensity` (lines 67-70): `(uint8_t)(value * intensity)`;
the float→uint8 cast truncates toward zero, i.e. floor on the nonnegative
products that occur (`value ≤ 255`, `intensity ∈ [0,1]`). -/
def apply_led_intensity (intensity : ℚ) (value : Nat) : Nat :=
  ((value : ℚ) * intensity).floor.toNat

/-- `fmodf (x, 2.0f)` for the nonnegative hue arguments of the rainbow
branch. -/
def qfmod2 (x : ℚ) : ℚ := x - 2 * ((x / 2).floor : ℚ)

/-- HSV→RGB skeleton of the rainbow branch (lines 127-141), before the
`(uint8_t)(c * 255)` conversion: values in `[0,1]` per channel. -/
def rainbow_rgb_unit (i n : Nat) : ℚ × ℚ × ℚ :=
  let hue : ℚ := (i : ℚ) / (n : ℚ) * 360
  let x : ℚ := 1 - |qfmod2 (hue / 60) - 1|
  if hue < 60 then (1, x, 0)
  else if hue < 120 then (x, 1, 0)
  else if hue < 180 then (0, 1, x)
  else if hue < 240 then (0, x, 1)
  else if hue < 300 then (x, 0, 1)
  else (1, 0, x)

/-- Pixel `i` of the rainbow pattern (lines 142-145): each unit channel is
scaled by 255, truncated to `uint8_t`, then intensity-scaled. -/
def rainbow_pixel (intensity : ℚ) (i n : Nat) : Rgb :=
  let (r, g, b) := rainbow_rgb_unit i n
  ⟨apply_led_intensity intensity ((r * 255).floor.toNat),
   apply_led_intensity intensity ((g * 255).floor.toNat),
   apply_led_intensity intensity ((b * 255).floor.toNat)⟩

/-- The global mutable state of action_manager.c: `s_device_state`,
`s_led_strip` (none = strip handle not set) together with its pixel contents,
`s_paused_led_pattern` (parsed form) and `s_has_paused_led_state`. -/
structure AMState where
  device : DeviceState
  strip : Option (List Rgb)
  paused_led_pattern : LedPayload
  has_paused_led_state : Bool
  deriving DecidableEq, Repr

/-- `execute_led_pattern` (lines 73-154). `none` payload models a NULL
`pattern_json` (line 75) — an unparseable string likewise ends at
`ESP_ERR_INVALID_ARG`, folded into the same case. A missing strip handle is
`ESP_ERR_INVALID_STATE` (lines 79-82). The loops over
`CONFIG_LED_AUDIO_LED_COUNT` pixels are modelled over the strip's pixel
list. An unrecognized pattern string or an object with neither field falls
through and returns `ESP_OK` (lines 150-153). -/
def execute_led_pattern (st : AMState) (payload : Option LedPayload) :
    AMState × EspErr :=
  match payload with
  | none => (st, EspErr.invalidArg)
  | some p =>
    match st.strip with
    | none => (st, EspErr.invalidState)
    | some pixels =>
      match p with
      | LedPayload.color r g b =>
        let inten := st.device.current_led_intensity
        let px : Rgb :=
          ⟨apply_led_intensity inten (int_to_uint8 r),
           apply_led_intensity inten (int_to_uint8 g),
           apply_led_intensity inten (int_to_uint8 b)⟩
        ({ st with strip := some (pixels.map fun _ => px) }, EspErr.ok)
      | LedPayload.pattern name =>
        if name = "clear" then
          ({ st with strip := some (pixels.map fun _ => rgb_off) }, EspErr.ok)
        else if name = "rainbow" then
          let n := pixels.length
          let px := (List.range n).map fun i =>
            rainbow_pixel st.device.current_led_intensity i n
          ({ st with strip := some px }, EspErr.ok)
        else (st, EspErr.ok)
      | LedPayload.empty => (st, EspErr.ok)

/-- The tagged-variant `action_t` (action_manager.h), payloads already
extracted as in `action_manager_execute`'s uses of them. -/
inductive Action
  | songChange (song_name : String) (volume : ℚ)
  | speech (text : String)
  | led (pattern_data : Option LedPayload)
  | setLedIntensity (intensity : ℚ)
  | setVolume (volume : ℚ)
  | pause
  | play
  | routineEnd
  | unknown
  deriving DecidableEq, Repr

/-- Clamping used by `set_audio_volume` (lines 159-160) and the
`ACTION_SET_LED_INTENSITY` branch (lines 203-204). -/
def clamp01 (x : ℚ) : ℚ := if x < 0 then 0 else if 1 < x then 1 else x

/-- `action_manager_execute` (lines 172-262).
The `ACTION_PAUSE` branch (lines 214-231): early `ESP_OK` if already paused;
otherwise, when the strip handle is set, it writes the constant string
`\x7b"pattern":"clear"\x7d` into `s_paused_led_pattern` (line 221), sets
`s_has_paused_led_state`, clears the strip, and finally sets
`paused = true`, `audio_playing = false`.
The `ACTION_PLAY` branch (lines 233-247): early `ESP_OK` if not paused;
otherwise replays the saved pattern (result discarded), drops the snapshot
flag, and clears `paused`. -/
def action_manager_execute (st : AMState) (a : Action) : AMState × EspErr :=
  match a with
  | Action.songChange _ _ => (st, EspErr.ok)
  | Action.speech _ => (st, EspErr.ok)
  | Action.led p => execute_led_pattern st p
  | Action.setLedIntensity x =>
    ({ st with device := { st.device with current_led_intensity := clamp01 x } },
     EspErr.ok)
  | Action.setVolume v =>
    ({ st with device := { st.device with current_volume := clamp01 v } },
     EspErr.ok)
  | Action.pause =>
    if st.device.paused then (st, EspErr.ok)
    else
      let st1 :=
        match st.strip with
        | some pixels =>
          { st with paused_led_pattern := LedPayload.pattern "clear"
                    has_paused_led_state := true
                    strip := some (pixels.map fun _ => rgb_off) }
        | none => st
      ({ st1 with device :=
          { st1.device with paused := true, audio_playing := false } },
       EspErr.ok)
  | Action.play =>
    if !st.device.paused then (st, EspErr.ok)
    else
      let st1 :=
        if st.has_paused_led_state ∧ st.strip.isSome then
          let st2 := (execute_led_pattern st (some st.paused_led_pattern)).1
          { st2 with has_paused_led_state := false }
        else st
      ({ st1 with device := { st1.device with paused := false } }, EspErr.ok)
  | Action.routineEnd =>
    match st.strip with
    | some pixels =>
      ({ st with strip := some (pixels.map fun _ => rgb_off) }, EspErr.ok)
    | none => (st, EspErr.ok)
  | Action.unknown => (st, EspErr.invalidArg)

/-! ## Wake detector (src/components/openwakeword/openwakeword_esp32.cpp) -/

/-- Sum of squares of a 512-sample chunk (`wake_word_task` lines 102-112). -/
def chunkSumSq (c : List Int) : Int := c.foldl (fun a x => a + x * x) 0

/-- Chunk classification (line 153): `rms_energy > ENERGY_THRESHOLD` with
`rms_energy = sqrt (sumSq / 512)` and threshold `5.0`, i.e. exactly
`sumSq > 512 * 25 = 12800`. -/
def chunkIsSpeech (c : List Int) : Bool := 12800 < chunkSumSq c

/-- The detection counters (`speech_count`, `silence_count`, lines 85-86). -/
structure OwwState where
  speech_count : Nat
  silence_count : Nat
  deriving DecidableEq, Repr

/-- One chunk of the detection loop (lines 153-189). A speech chunk
increments `speech_count` and zeroes `silence_count`; a silence chunk
increments `silence_count` and then, if `speech_count ≥ 3` and
`silence_count ≥ 2` (`SPEECH_CHUNKS_REQUIRED`, `SILENCE_CHUNKS_REQUIRED`,
lines 91-92), invokes the callback with `"hey_nap"` (line 184) and resets
both counters. Note the silence branch leaves `speech_count` untouched. -/
def owwStep (s : OwwState) (isSpeech : Bool) : OwwState × Option String :=
  if isSpeech then
    ({ speech_count := s.speech_count + 1, silence_count := 0 }, none)
  else
    let sil := s.silence_count + 1
    if 3 ≤ s.speech_count ∧ 2 ≤ sil then
      ({ speech_count := 0, silence_count := 0 }, some "hey_nap")
    else ({ s with silence_count := sil }, none)

/-- Run the detection loop over a classified chunk sequence, collecting the
per-chunk callback invocations. -/
def owwRun (s : OwwState) : List Bool → OwwState × List (Option String)
  | [] => (s, [])
  | b :: t =>
    ((owwRun (owwStep s b).1 t).1,
     (owwStep s b).2 :: (owwRun (owwStep s b).1 t).2)

/-- Callback invocations from the initial counters (both start at 0). -/
def owwFires (l : List Bool) : List (Option String) := (owwRun ⟨0, 0⟩ l).2

/-- Full pipeline: classify each 512-sample chunk, then run the loop. -/
def owwProcessChunks (chunks : List (List Int)) : List (Option String) :=
  owwFires (chunks.map chunkIsSpeech)

/-- `l` contains `k` consecutive `true`s (a run of `k` speech chunks). -/
def hasSpeechRun (k : Nat) (l : List Bool) : Bool :=
  l.tails.any fun t => decide (k ≤ t.length) && (t.take k).all (· = true)

/-! ## TLS serialization lock discipline (src/components/tls_mutex/tls_mutex.c
and its three HTTPS client call sites) -/

/-- Abstract operations of a task around one HTTPS session. -/
inductive NetOp
  | takeTlsLock      -- tls_mutex_take
  | giveTlsLock      -- tls_mutex_give
  | openHttpSession  -- esp_http_client_init (TLS session owned from here)
  | performRequest   -- esp_http_client_perform
  | closeHttpSession -- esp_http_client_cleanup
  deriving DecidableEq, Repr

/-- `http_post_json_with_auth` (gemini_api.c lines 244-283, happy path):
take the TLS mutex (line 246), init the client (252), perform (273),
cleanup (280), give the mutex (283). -/
def gemini_http_post_ops : List NetOp :=
  [NetOp.takeTlsLock, NetOp.openHttpSession, NetOp.performRequest,
   NetOp.closeHttpSession, NetOp.giveTlsLock]

/-- `environmental_report_fetch_weather_data` (environmental_report.c lines
95-143, happy path): same discipline with a 15 s lock timeout. -/
def weather_fetch_ops : List NetOp :=
  [NetOp.takeTlsLock, NetOp.openHttpSession, NetOp.performRequest,
   NetOp.closeHttpSession, NetOp.giveTlsLock]

/-- `sensor_manager_collect_and_publish` (sensor_manager.c lines 333-357):
the HTTPS POST of the telemetry packet. The function contains no call to
`tls_mutex_take` or `tls_mutex_give` anywhere (nor does any other code in
sensor_manager.c). -/
def sensor_publish_ops : List NetOp :=
  [NetOp.openHttpSession, NetOp.performRequest, NetOp.closeHttpSession]

/-- Auxiliary scan: given the current lock-hold depth, check that every
session operation happens while the lock is held. -/
def underLockGo : Nat → List NetOp → Bool
  | _, [] => true
  | d, NetOp.takeTlsLock :: t => underLockGo (d + 1) t
  | d, NetOp.giveTlsLock :: t => underLockGo (d - 1) t
  | d, _ :: t => decide (0 < d) && underLockGo d t

/-- A task's operation sequence opens, uses and closes its HTTP session only
while holding the TLS serialization lock. -/
def sessionUnderLock (ops : List NetOp) : Bool := underLockGo 0 ops

/-! ## Remote API client (src/components/gemini/gemini_api.c) -/

/-- Least index at which `pat` occurs in `hay` (the C `strstr`). -/
def findSubIdx (pat : List Char) : List Char → Option Nat
  | [] => if pat = [] then some 0 else none
  | h :: t =>
    if pat.isPrefixOf (h :: t) then some 0
    else (findSubIdx pat t).map (· + 1)

/-- `strstr (hay, needle) != NULL`. -/
def strstr_contains (hay needle : String) : Bool :=
  (findSubIdx needle.toList hay.toList).isSome

/-- The three request URLs built by `gemini_stt` (line 398), `gemini_llm` /
`gemini_llm_with_functions` (lines 562-564, 681-683) and `gemini_tts` /
`gemini_tts_streaming` (lines 813-815, 921-923); the API key does not
affect the endpoint test. -/
def stt_url : String :=
  "https://speech.googleapis.com/v1/speech:recognize?key=K"

def llm_url : String :=
  "https://generativelanguage.googleapis.com/v1beta/models/gemini-2.0-flash:generateContent?key=K"

def tts_url : String :=
  "https://texttospeech.googleapis.com/v1/text:synthesize?key=K"

/-- Response-buffer sizing of `http_post_json_with_auth` (lines 171-179):
default `96 * 1024` bytes, raised to `192 * 1024` when the URL contains
`"texttospeech"`. -/
def response_buffer_size (url : String) : Nat :=
  if strstr_contains url "texttospeech" then 192 * 1024 else 96 * 1024

/-- Allocation environment: which allocation sizes succeed in SPIRAM
(`heap_caps_malloc` with `MALLOC_CAP_SPIRAM`), internal RAM
(`MALLOC_CAP_INTERNAL`) and the default `malloc` heap. -/
structure AllocEnv where
  spiram : Nat → Bool
  internal : Nat → Bool
  malloc : Nat → Bool

/-- Primary allocation attempt (lines 183-194): sizes above 32 KB try
SPIRAM then internal RAM; smaller sizes use plain `malloc`. -/
def alloc_primary (env : AllocEnv) (size : Nat) : Bool :=
  if 32 * 1024 < size then env.spiram size || env.internal size
  else env.malloc size

/-- Buffer allocation of `http_post_json_with_auth` when `response->data` is
not preallocated (lines 182-221): primary size by endpoint, degrading to a
32 KB then a 24 KB `malloc`, else `ESP_ERR_NO_MEM`. Returns the resulting
`response->cap`. -/
def http_response_alloc (env : AllocEnv) (url : String) : Except EspErr Nat :=
  let primary := response_buffer_size url
  if alloc_primary env primary then Except.ok primary
  else if env.malloc (32 * 1024) then Except.ok (32 * 1024)
  else if env.malloc (24 * 1024) then Except.ok (24 * 1024)
  else Except.error EspErr.noMem

/-- Spec-side retry policy, stated for comparison with the code: §4.10
"LLM: up to 3 attempts with 2-second backoff; counts only on transport or
allocation failure". `f n` is the outcome of attempt `n`. Returns the number
of HTTP attempts such a policy performs. -/
def isRetryableFailure : EspErr → Bool
  | EspErr.fail => true
  | EspErr.noMem => true
  | EspErr.timeout => true
  | _ => false

def spec_llm_retry_attempts (f : Nat → EspErr) : Nat :=
  if isRetryableFailure (f 0) = false then 1
  else if isRetryableFailure (f 1) = false then 2
  else 3

/-- `strncpy` truncation into an `n + 1`-byte buffer: keep the first `n`
characters. -/
def strncpy_take (s : String) (n : Nat) : String := (s.toList.take n).asString

/-- Outcome of the single `functionCall` object inspected in
`candidates[0].content.parts[0]` (lines 728-752): its `name` field when
string-valued, and `cJSON_PrintUnformatted` of its `args` field when
present. -/
structure GFunctionCall where
  name : Option String
  args : Option String
  deriving DecidableEq, Repr

/-- One element of `candidates[0].content.parts`: the `functionCall` object
if present, and the `text` field if string-valued. -/
structure GPart where
  functionCall : Option GFunctionCall
  text : Option String
  deriving DecidableEq, Repr

/-- `gemini_function_call_t` (gemini_api.h lines 48-52): buffers of 64 and
512 bytes, hence `strncpy` truncation to 63 and 511 characters. -/
structure FunctionCallOut where
  function_name : String
  arguments : String
  is_function_call : Bool
  deriving DecidableEq, Repr

/-- `memset (function_call, 0, ...)` at entry (lines 641-643). -/
def emptyFunctionCallOut : FunctionCallOut := ⟨"", "", false⟩

/-- Text branch of the extraction (lines 755-764): copy the `text` part into
the caller's `response` buffer of `response_len` bytes, `ESP_OK`; with no
such field the function falls through to `ESP_FAIL` (lines 771-773). -/
def extract_text_reply (part : GPart) (response_len : Nat) :
    EspErr × String × FunctionCallOut :=
  match part.text with
  | some t =>
    (EspErr.ok, strncpy_take t (response_len - 1), emptyFunctionCallOut)
  | none => (EspErr.fail, "", emptyFunctionCallOut)

/-- Response extraction of `gemini_llm_with_functions` (lines 716-773).
`parts` is `candidates[0].content.parts` when every level down to a
non-empty parts array exists, else `none`. `haveFuncOut` says whether the
caller passed a non-NULL `function_call` output. A `functionCall` object
with a string `name` in the first part yields `ESP_ERR_NOT_FOUND` with the
output filled (lines 729-752); otherwise the first part's `text` is used. -/
def extract_llm_reply (parts : Option (List GPart)) (haveFuncOut : Bool)
    (response_len : Nat) : EspErr × String × FunctionCallOut :=
  match parts with
  | some (part :: _) =>
    match part.functionCall, haveFuncOut with
    | some fc, true =>
      match fc.name with
      | some n =>
        let out : FunctionCallOut :=
          { function_name := strncpy_take n 63
            arguments :=
              match fc.args with
              | some a => strncpy_take a 511
              | none => ""
            is_function_call := true }
        (EspErr.notFound, "", out)
      | none => extract_text_reply part response_len
    | _, _ => extract_text_reply part response_len
  | _ => (EspErr.fail, "", emptyFunctionCallOut)

/-- `gemini_llm` (lines 527-626) performs exactly one call to
`http_post_json_with_auth` (line 571) and returns its error immediately on
failure (lines 574-577); there is no retry loop or backoff. `http n` is the
outcome the transport would give to attempt `n`; `parsedText` is the `text`
extracted from a successful response (lines 598-621), `none` when absent
(`ESP_FAIL`, lines 623-625). The second component counts HTTP attempts. -/
def gemini_llm_model (http : Nat → EspErr) (parsedText : Option String) :
    (EspErr × Option String) × Nat :=
  let e := http 0
  if e ≠ EspErr.ok then ((e, none), 1)
  else
    match parsedText with
    | some t => ((EspErr.ok, some t), 1)
    | none => ((EspErr.fail, none), 1)

/-- `gemini_llm_with_functions` (lines 628-774): likewise a single call to
`http_post_json_with_auth` (line 690), error returned immediately
(lines 693-696), no retry. -/
def gemini_llm_with_functions_model (http : Nat → EspErr)
    (parts : Option (List GPart)) (haveFuncOut : Bool) (response_len : Nat) :
    (EspErr × String × FunctionCallOut) × Nat :=
  let e := http 0
  if e ≠ EspErr.ok then ((e, "", emptyFunctionCallOut), 1)
  else (extract_llm_reply parts haveFuncOut response_len, 1)

/-- Shape of the parsed Google STT response used by `gemini_stt`
(lines 429-524): an `error` object, the `results` array (none = missing or
not an array), each result's `alternatives`, each alternative's
`transcript`. -/
structure SttAlternative where
  transcript : Option String
  deriving DecidableEq, Repr

structure SttResult where
  alternatives : Option (List SttAlternative)
  deriving DecidableEq, Repr

structure SttResponse where
  hasError : Bool
  results : Option (List SttResult)
  deriving DecidableEq, Repr

/-- Transcript extraction of `gemini_stt` (lines 437-524). An empty
`results` array is a success with an empty transcript (lines 469-476), as
is an empty `alternatives` array (lines 494-501); missing fields are
`ESP_FAIL`. `text_len` is the caller's buffer size (truncation at
line 519). -/
def gemini_stt_extract (r : SttResponse) (text_len : Nat) : EspErr × String :=
  if r.hasError then (EspErr.fail, "")
  else
    match r.results with
    | none => (EspErr.fail, "")
    | some [] => (EspErr.ok, "")
    | some (res :: _) =>
      match res.alternatives with
      | none => (EspErr.fail, "")
      | some [] => (EspErr.ok, "")
      | some (alt :: _) =>
        match alt.transcript with
        | none => (EspErr.fail, "")
        | some t => (EspErr.ok, strncpy_take t (text_len - 1))

/-- `gemini_stt` (lines 324-525) performs exactly one call to
`http_post_json_with_auth` (line 405) and returns its error immediately
(lines 408-415); there is no retry loop. -/
def gemini_stt_model (http : Nat → EspErr) (resp : SttResponse)
    (text_len : Nat) : (EspErr × String) × Nat :=
  let e := http 0
  if e ≠ EspErr.ok then ((e, ""), 1)
  else (gemini_stt_extract resp text_len, 1)

/-! ## Voice session (src/main/voice_assistant.c `process_voice_command` and
src/main/wake_word_manager.c `on_wake_word_detected`) -/

/-- Externally visible calls made by `process_voice_command`
(voice_assistant.c lines 217-299). -/
inductive VCall
  | sttCall                    -- gemini_stt (line 223)
  | llmCall (prompt : String)  -- gemini_llm_with_functions (line 236)
  | actionExec (fname : String) -- execute_function_call (line 245)
  | confirmCall                -- gemini_llm confirmation (line 254)
  | ttsCall (text : String)    -- gemini_tts (line 280)
  | playCall                   -- audio_player_submit_pcm (line 292)
  deriving DecidableEq, Repr

/-- Outcomes of the remote calls and of the action execution, supplied as an
environment so the session's control flow can be traced. -/
structure VoiceEnv where
  stt : EspErr × String
  llm : EspErr × String × FunctionCallOut
  execResult : EspErr
  confirm : EspErr × String
  tts : EspErr
  play : EspErr

/-- Steps 3-4 of `process_voice_command` (lines 271-298): TTS synthesis of
`text`; a TTS failure aborts with its error, a playback failure is only
logged and the function returns `ESP_OK`. -/
def tts_stage (env : VoiceEnv) (text : String) (tr : List VCall) :
    EspErr × List VCall :=
  let tr1 := tr ++ [VCall.ttsCall text]
  if env.tts ≠ EspErr.ok then (env.tts, tr1)
  else (EspErr.ok, tr1 ++ [VCall.playCall])

/-- `process_voice_command` (lines 217-299) as a call trace. STT error
aborts (lines 224-227). The transcript — empty or not — is passed straight
to `gemini_llm_with_functions` (line 236); there is no empty-transcript
check. `ESP_ERR_NOT_FOUND` plus `is_function_call` selects the
function-call branch (lines 241-263): execute, then on success a
confirmation LLM call whose failure falls back to the text `"Done."`
(lines 246-258), on failure the fixed apology text (lines 260-262); any
other non-OK LLM result aborts (lines 264-267). Finally TTS and playback. -/
def process_voice_command_model (env : VoiceEnv) : EspErr × List VCall :=
  let sttErr := env.stt.1
  let transcript := env.stt.2
  let tr0 := [VCall.sttCall]
  if sttErr ≠ EspErr.ok then (sttErr, tr0)
  else
    let llmErr := env.llm.1
    let llmText := env.llm.2.1
    let fc := env.llm.2.2
    let tr1 := tr0 ++ [VCall.llmCall transcript]
    if llmErr = EspErr.notFound ∧ fc.is_function_call then
      let tr2 := tr1 ++ [VCall.actionExec fc.function_name]
      if env.execResult = EspErr.ok then
        let tr3 := tr2 ++ [VCall.confirmCall]
        let response :=
          if env.confirm.1 = EspErr.ok then env.confirm.2 else "Done."
        tts_stage env response tr3
      else
        tts_stage env
          ("I tried to " ++ fc.function_name ++ " but encountered an error.")
          tr2
    else if llmErr ≠ EspErr.ok then (llmErr, tr1)
    else tts_stage env llmText tr1

/-- Events of the wake callback `on_wake_word_detected`
(wake_word_manager.c lines 199-349). -/
inductive WakeEv
  | pauseCapture    -- s_running = false; capture task stops (lines 211-217)
  | record          -- the 3-second recording loop (lines 244-293)
  | resumeCapture   -- wake_word_manager_start() restart (lines 300-312)
  | voice (c : VCall) -- steps of voice_assistant_process_command (line 338)
  deriving DecidableEq, Repr

/-- `on_wake_word_detected` as an event trace. Wake identifiers other than
`"hey_nap"` are ignored (lines 204-207). When capture was running it is
stopped before recording and restarted right after the recording loop —
lines 300-312, before the call to `voice_assistant_process_command` at
line 338. The voice-command processing happens only when samples were
recorded (line 314). -/
def on_wake_word_detected_model (wake_word : String) (was_running : Bool)
    (samples_recorded : Nat) (env : VoiceEnv) : List WakeEv :=
  if wake_word ≠ "hey_nap" then []
  else
    (if was_running then [WakeEv.pauseCapture] else []) ++ [WakeEv.record] ++
    (if was_running then [WakeEv.resumeCapture] else []) ++
    (if 0 < samples_recorded then
      (process_voice_command_model env).2.map WakeEv.voice
     else [])

/-! ## Streaming TTS response handling (gemini_api.c `gemini_tts_streaming`,
lines 884-1248) -/

/-- The HTTP event handler (lines 48-63) appends every `ON_DATA` chunk to
the single response buffer; exceeding the capacity fails the transfer with
`ESP_ERR_NO_MEM` (lines 53-59). Returns the accumulated buffer, or `none`
on overflow. -/
def http_accumulate (cap : Nat) (chunks : List (List Char)) :
    Option (List Char) :=
  let all := chunks.flatten
  if cap ≤ all.length then none else some all

/-- Case-sensitive pattern for `strstr (response, "\"audioContent\"")`
(line 998). -/
def audioContentPat : List Char := '"' :: ("audioContent".toList ++ ['"'])

/-- Case-insensitive fallback scan (`strncasecmp`, lines 1000-1007). -/
def charLower (c : Char) : Char := c.toLower

def listPrefixCI (pat hay : List Char) : Bool :=
  (pat.map charLower).isPrefixOf (hay.map charLower)

def findSubIdxCI (pat : List Char) : List Char → Option Nat
  | [] => if pat = [] then some 0 else none
  | h :: t =>
    if listPrefixCI pat (h :: t) then some 0
    else (findSubIdxCI pat t).map (· + 1)

/-- Whitespace skipped after the colon (lines 1014-1017) and trimmed from
the extracted value (lines 1044-1059). -/
def isWsChar (c : Char) : Bool := c = ' ' ∨ c = '\t' ∨ c = '\n' ∨ c = '\r'

/-- Control characters also trimmed (lines 1045-1059: `< 0x20`). -/
def isCtlChar (c : Char) : Bool := c.toNat < 0x20

/-- First unescaped `'"'` (lines 1024-1032): a quote counts unless the
previous character is a backslash; the first scanned character has the
opening quote as predecessor and always counts. -/
def findUnescapedQuote : Option Char → List Char → Option Nat
  | _, [] => none
  | prev, c :: t =>
    if c = '"' ∧ prev ≠ some '\x5c' then some 0
    else (findUnescapedQuote (some c) t).map (· + 1)

/-- Manual extraction of the base64 `audioContent` value (lines 996-1098):
find `"audioContent"` (exact, then case-insensitive), the following colon,
skip whitespace, require an opening quote, take up to the first unescaped
quote (which must not be immediately adjacent, line 1034), and trim
whitespace/control characters from both ends. On a well-formed response
the primary `cJSON_Parse` path (lines 1100-1111) extracts the same string;
this models the shared outcome. -/
def tts_extract_base64 (resp : List Char) : Option (List Char) :=
  let idx :=
    match findSubIdx audioContentPat resp with
    | some i => some i
    | none => findSubIdxCI audioContentPat resp
  match idx with
  | none => none
  | some i =>
    let rest := resp.drop i
    match rest.findIdx? (· = ':') with
    | none => none
    | some j =>
      let afterColon := rest.drop (j + 1)
      let vs := afterColon.dropWhile isWsChar
      match vs with
      | '"' :: tail =>
        match findUnescapedQuote none tail with
        | none => none
        | some 0 => none
        | some k =>
          let payload := tail.take k
          let trimFront := payload.dropWhile fun c => isWsChar c ∨ isCtlChar c
          let trimmed :=
            (trimFront.reverse.dropWhile fun c => isWsChar c ∨ isCtlChar c).reverse
          some trimmed
      | _ => none

/-- Base64 alphabet test of the validation loop (lines 1164-1184). -/
def isB64Char (c : Char) : Bool :=
  ('A' ≤ c ∧ c ≤ 'Z') ∨ ('a' ≤ c ∧ c ≤ 'z') ∨ ('0' ≤ c ∧ c ≤ '9') ∨
  c = '+' ∨ c = '/' ∨ c = '='

/-- The validation loop checks (at most) the first 50 characters. -/
def validateB64Head (l : List Char) : Bool := (l.take 50).all isB64Char

/-- Value of a base64 digit, as in `mbedtls_base64_decode`. -/
def b64DigitVal (c : Char) : Option Nat :=
  if 'A' ≤ c ∧ c ≤ 'Z' then some (c.toNat - 'A'.toNat)
  else if 'a' ≤ c ∧ c ≤ 'z' then some (c.toNat - 'a'.toNat + 26)
  else if '0' ≤ c ∧ c ≤ '9' then some (c.toNat - '0'.toNat + 52)
  else if c = '+' then some 62
  else if c = '/' then some 63
  else none

/-- Decode one base64 quartet to 1-3 bytes, honouring `=` padding. -/
def b64Quartet (a b c d : Char) : Option (List Nat) :=
  match b64DigitVal a, b64DigitVal b with
  | some va, some vb =>
    let b0 := va * 4 + vb / 16
    if c = '=' then (if d = '=' then some [b0] else none)
    else
      match b64DigitVal c with
      | some vc =>
        let b1 := (vb % 16) * 16 + vc / 4
        if d = '=' then some [b0, b1]
        else
          match b64DigitVal d with
          | some vd => some [b0, b1, (vc % 4) * 64 + vd]
          | none => none
      | none => none
  | _, _ => none

/-- Single-shot base64 decode over the whole extracted string, modelling
the one `mbedtls_base64_decode` call at lines 1222-1223; invalid input is
an error (`ESP_FAIL` path, lines 1226-1232). -/
def b64Decode : List Char → Option (List Nat)
  | [] => some []
  | a :: b :: c :: d :: rest =>
    match b64Quartet a b c d with
    | none => none
    | some h =>
      if rest ≠ [] ∧ (c = '=' ∨ d = '=') then none
      else
        match b64Decode rest with
        | none => none
        | some t => some (h ++ t)
  | _ => none

/-- Observable outcome of `gemini_tts_streaming`'s response handling:
how many response bytes sit in the response buffer when parsing starts,
the sample counts passed to the playback callback (one entry per
invocation), and the result code. -/
structure TtsStreamOutcome where
  buffered_bytes : Nat
  sink_calls : List Nat
  result : EspErr
  deriving DecidableEq, Repr

/-- `gemini_tts_streaming` response handling (lines 925-1247): a single
512 KB buffer receives the whole HTTP response (lines 929-944 with the
event handler of lines 48-63); only after the transfer completes is the
base64 `audioContent` located (lines 986-1204), decoded in one
`mbedtls_base64_decode` call (lines 1222-1223), and the caller's callback
invoked exactly once with the complete decoded PCM (line 1238, sample
count = decoded bytes / 2, line 1234). -/
def gemini_tts_streaming_model (chunks : List (List Char)) : TtsStreamOutcome :=
  let cap := 512 * 1024 - 1
  match http_accumulate cap chunks with
  | none => ⟨cap, [], EspErr.noMem⟩
  | some resp =>
    match tts_extract_base64 resp with
    | none => ⟨resp.length, [], EspErr.fail⟩
    | some b64 =>
      if b64.length = 0 then ⟨resp.length, [], EspErr.fail⟩
      else if validateB64Head b64 = false then ⟨resp.length, [], EspErr.fail⟩
      else
        match b64Decode b64 with
        | none => ⟨resp.length, [], EspErr.fail⟩
        | some bytes => ⟨resp.length, [bytes.length / 2], EspErr.ok⟩

/-! ## Concrete inputs used by the theorems -/

/-- A 512-sample chunk of constant amplitude 10: RMS = 10 > 5, a speech
chunk. -/
def speech_chunk : List Int := List.replicate 512 10

/-- A 512-sample chunk of zeros: RMS = 0, a silence chunk. -/
def silence_chunk : List Int := List.replicate 512 0

/-- Two speech chunks, one silence chunk, one more speech chunk, two
silence chunks: at no point do three consecutive speech chunks occur. -/
def c8_chunks : List (List Int) :=
  [speech_chunk, speech_chunk, silence_chunk,
   speech_chunk, silence_chunk, silence_chunk]

/-- A well-formed TTS response whose `audioContent` holds 16 base64
characters (12 decoded bytes = 6 PCM samples). -/
def tts_resp : String := "\x7b\"audioContent\": \"AAAAAAAAAAAAAAAA\"\x7d"

/-- The same response delivered by the HTTP stack in two `ON_DATA` chunks. -/
def tts_resp_chunks : List (List Char) :=
  [tts_resp.toList.take 10, tts_resp.toList.drop 10]

/-- Remote-call outcomes for a plain-text voice exchange in which every
stage succeeds. -/
def c1_env : VoiceEnv :=
  { stt := (EspErr.ok, "what time is it")
    llm := (EspErr.ok, "It is noon.", emptyFunctionCallOut)
    execResult := EspErr.ok
    confirm := (EspErr.ok, "")
    tts := EspErr.ok
    play := EspErr.ok }

/-- An unpaused device whose three-pixel strip shows a red pattern (the
result of a solid-color LED action at intensity 0.3: 255 × 0.3 → 76). -/
def am_red_strip : AMState :=
  { device :=
      { paused := false, current_volume := 1
        current_led_intensity := 3 / 10, audio_playing := false }
    strip := some [⟨76, 0, 0⟩, ⟨76, 0, 0⟩, ⟨76, 0, 0⟩]
    paused_led_pattern := LedPayload.empty
    has_paused_led_state := false }

/-- A device that is already paused, with the saved snapshot populated. -/
def am_paused_example : AMState :=
  { device :=
      { paused := true, current_volume := 1 / 2
        current_led_intensity := 3 / 10, audio_playing := false }
    strip := some [rgb_off, rgb_off, rgb_off]
    paused_led_pattern := LedPayload.pattern "clear"
    has_paused_led_state := true }

/-- An unpaused device with a lit strip and no saved snapshot. -/
def am_unpaused_example : AMState :=
  { device :=
      { paused := false, current_volume := 1
        current_led_intensity := 1, audio_playing := true }
    strip := some [⟨0, 0, 255⟩, ⟨0, 0, 255⟩]
    paused_led_pattern := LedPayload.empty
    has_paused_led_state := false }

/-- A session whose STT call succeeds with an empty transcript (the Google
STT response had an empty `results` array, as for 3 s of zero samples) and
whose LLM replies with plain text. -/
def c4_env : VoiceEnv :=
  { stt := gemini_stt_extract ⟨false, some []⟩ 512
    llm := (EspErr.ok, "Hello there.", emptyFunctionCallOut)
    execResult := EspErr.ok
    confirm := (EspErr.ok, "")
    tts := EspErr.ok
    play := EspErr.ok }

/-- A session whose STT call succeeds with a non-empty transcript. -/
def c4_ok_env : VoiceEnv :=
  { stt := (EspErr.ok, "hello")
    llm := (EspErr.ok, "Hi.", emptyFunctionCallOut)
    execResult := EspErr.ok
    confirm := (EspErr.ok, "")
    tts := EspErr.ok
    play := EspErr.ok }

/-- A session whose STT call fails with a transport error. -/
def c4_fail_env : VoiceEnv :=
  { stt := (EspErr.fail, "")
    llm := (EspErr.ok, "Hi.", emptyFunctionCallOut)
    execResult := EspErr.ok
    confirm := (EspErr.ok, "")
    tts := EspErr.ok
    play := EspErr.ok }

/-- A `functionCall` part as returned for "turn the LEDs blue". -/
def c9_fc : GFunctionCall :=
  ⟨some "set_led_color", some "\x7b\"red\":0,\"green\":0,\"blue\":255\x7d"⟩

def c9_part_fc : GPart := ⟨some c9_fc, none⟩

def c9_part_text : GPart := ⟨none, some "Sure, done."⟩

/-- A session whose LLM call reports a function call (the `ESP_ERR_NOT_FOUND`
protocol) and whose remaining stages succeed. -/
def c9_env : VoiceEnv :=
  { stt := (EspErr.ok, "turn the leds blue")
    llm := (EspErr.notFound, "",
            ⟨"set_led_color", "\x7b\"red\":0,\"green\":0,\"blue\":255\x7d", true⟩)
    execResult := EspErr.ok
    confirm := (EspErr.ok, "I set the LEDs to blue.")
    tts := EspErr.ok
    play := EspErr.ok }

/-- An allocation environment in which every allocation fails. -/
def alloc_none : AllocEnv := ⟨fun _ => false, fun _ => false, fun _ => false⟩

/-! ## Helper lemmas -/

/-- Running the detector over an appended chunk sequence composes. -/
theorem owwRun_append (s : OwwState) (l1 l2 : List Bool) :
    owwRun s (l1 ++ l2) =
      ((owwRun (owwRun s l1).1 l2).1,
       (owwRun s l1).2 ++ (owwRun (owwRun s l1).1 l2).2) := by
  induction l1 generalizing s with
  | nil => simp [owwRun]
  | cons b t ih => simp [owwRun, ih]

/-- While fewer than three speech chunks have accumulated, silence chunks
never fire the detector. -/
theorem owwRun_silence_no_fire (sc : Nat) (h : sc < 3) :
    ∀ (n sil : Nat),
      some "hey_nap" ∉ (owwRun ⟨sc, sil⟩ (List.replicate n false)).2 := by
  have h3 : ¬ (3 ≤ sc) := by omega
  intro n
  induction n with
  | zero => intro sil; simp [owwRun]
  | succ k ih =>
    intro sil
    simp [List.replicate_succ, owwRun, owwStep, h3, ih (sil + 1)]

/-! ## Claim theorems -/

/-- Claim C1 (code bug): in a wake-triggered voice session the wake
detector should stay paused from the start of recording through the end of
TTS playback and be resumed only on the session's exit. The code instead
restarts the microphone capture feeding the detector (wake_word_manager.c
lines 300-312) immediately after the 3-second recording, before
`voice_assistant_process_command` performs STT, LLM, TTS and playback
(line 338): in the event trace of a successful session the resume event
strictly precedes the TTS playback event. -/
theorem wake_session_resume_precedes_tts_playback :
    on_wake_word_detected_model "hey_nap" true 48000 c1_env =
      [WakeEv.pauseCapture, WakeEv.record, WakeEv.resumeCapture,
       WakeEv.voice VCall.sttCall,
       WakeEv.voice (VCall.llmCall "what time is it"),
       WakeEv.voice (VCall.ttsCall "It is noon."),
       WakeEv.voice VCall.playCall] ∧
    List.indexOf WakeEv.resumeCapture
        (on_wake_word_detected_model "hey_nap" true 48000 c1_env) <
      List.indexOf (WakeEv.voice VCall.playCall)
        (on_wake_word_detected_model "hey_nap" true 48000 c1_env) := by
  decide

/-- Claim C2 (code bug): the streaming-TTS claim says the response handler
parses the JSON prefix incrementally, feeds base64 bytes to the streaming
decoder as they arrive, invokes the sink per decoded PCM block, and never
fully buffers the response. The code instead accumulates the whole HTTP
response in one buffer, decodes the base64 in a single call and invokes
the sink exactly once with the complete PCM: on a response delivered in
two chunks the buffered byte count equals the full response length and the
sink-call list has exactly one entry; moreover for every chunked delivery
the sink is invoked at most once. -/
theorem tts_streaming_fully_buffers_and_single_sink_call :
    gemini_tts_streaming_model tts_resp_chunks =
      ⟨(tts_resp_chunks.flatten).length, [6], EspErr.ok⟩ ∧
    (gemini_tts_streaming_model tts_resp_chunks).buffered_bytes = 36 ∧
    (∀ chunks : List (List Char),
      (gemini_tts_streaming_model chunks).sink_calls.length ≤ 1) := by
  refine ⟨by decide, by decide, ?_⟩
  intro chunks
  simp only [gemini_tts_streaming_model]
  cases h1 : http_accumulate (512 * 1024 - 1) chunks with
  | none => simp
  | some resp =>
    cases h2 : tts_extract_base64 resp with
    | none => simp [h2]
    | some b64 =>
      simp only [h2]
      split_ifs with h0 hv
      · simp
      · simp
      · cases h3 : b64Decode b64 with
        | none => simp [h3]
        | some bytes => simp [h3]

/-- Claim C3 (code bug): pause should snapshot the current LED pattern and
play should restore it bit-exactly. The `ACTION_PAUSE` branch instead
stores the constant pattern `clear` (action_manager.c line 221, under the
comment "Store current LED state"), so pause followed by play leaves the
strip cleared: from a red strip, pause then play ends with all pixels off,
not the pre-pause pattern. -/
theorem pause_play_does_not_restore_led_pattern :
    ((action_manager_execute
        (action_manager_execute am_red_strip Action.pause).1 Action.play).1).strip
      = some [rgb_off, rgb_off, rgb_off] ∧
    ((action_manager_execute
        (action_manager_execute am_red_strip Action.pause).1 Action.play).1).strip
      ≠ am_red_strip.strip := by
  decide

/-- Claim C4 counterexample: when STT succeeds with an empty transcript
(empty `results` array, as for silence) the claim says no LLM call is made
and no TTS is synthesized; but `process_voice_command` has no
empty-transcript check, so the session calls the LLM with the empty
transcript and proceeds to TTS and playback of whatever the LLM returns. -/
theorem empty_transcript_still_calls_llm :
    gemini_stt_extract ⟨false, some []⟩ 512 = (EspErr.ok, "") ∧
    VCall.llmCall "" ∈ (process_voice_command_model c4_env).2 ∧
    VCall.ttsCall "Hello there." ∈ (process_voice_command_model c4_env).2 ∧
    VCall.playCall ∈ (process_voice_command_model c4_env).2 := by
  decide

/-- Claim C4 (amended): if the STT step succeeds — with any transcript,
including the empty one — the session always proceeds to call the LLM with
that transcript; only an STT error aborts the session before the LLM, in
which case no LLM call, no TTS and no playback happen and the STT error is
returned. -/
theorem stt_gating_of_llm_call (env : VoiceEnv) :
    (env.stt.1 = EspErr.ok →
      VCall.llmCall env.stt.2 ∈ (process_voice_command_model env).2) ∧
    (env.stt.1 ≠ EspErr.ok →
      (process_voice_command_model env).2 = [VCall.sttCall] ∧
      (process_voice_command_model env).1 = env.stt.1) := by
  constructor
  · intro h
    unfold process_voice_command_model
    rw [h]
    simp only [ne_eq, not_true_eq_false, if_false, reduceIte]
    split
    · split <;> simp [tts_stage] <;> split <;> simp
    · split
      · simp
      · simp [tts_stage]; split <;> simp
  · intro h
    unfold process_voice_command_model
    simp [h]

/-- Claim C4 amended-theorem witness at concrete sessions. -/
theorem stt_gating_of_llm_call_witness :
    VCall.llmCall "hello" ∈ (process_voice_command_model c4_ok_env).2 ∧
    (process_voice_command_model c4_fail_env).2 = [VCall.sttCall] :=
  ⟨(stt_gating_of_llm_call c4_ok_env).1 rfl,
   ((stt_gating_of_llm_call c4_fail_env).2 (by decide)).1⟩

/-- Claim C5 counterexample: the claim says an LLM request is retried up to
3 attempts with backoff on transport failure. Under a transport that fails
every attempt, the retry policy of the spec performs 3 attempts, but
`gemini_llm` performs exactly one HTTP attempt — there is no retry loop in
the code. -/
theorem llm_no_retry_counterexample :
    (gemini_llm_model (fun _ => EspErr.fail) none).2 = 1 ∧
    spec_llm_retry_attempts (fun _ => EspErr.fail) = 3 ∧
    (gemini_llm_model (fun _ => EspErr.fail) none).2 ≠
      spec_llm_retry_attempts (fun _ => EspErr.fail) := by
  decide

/-- Claim C5 (amended): neither LLM nor STT requests are retried —
`gemini_llm`, `gemini_llm_with_functions` and `gemini_stt` each perform
exactly one HTTP attempt for any transport behaviour, with no backoff, and
a transport failure is returned to the caller unchanged. -/
theorem llm_and_stt_single_http_attempt :
    (∀ (http : Nat → EspErr) (p : Option String),
      (gemini_llm_model http p).2 = 1) ∧
    (∀ (http : Nat → EspErr) (parts : Option (List GPart))
       (haveOut : Bool) (len : Nat),
      (gemini_llm_with_functions_model http parts haveOut len).2 = 1) ∧
    (∀ (http : Nat → EspErr) (resp : SttResponse) (len : Nat),
      (gemini_stt_model http resp len).2 = 1) ∧
    (gemini_llm_model (fun _ => EspErr.fail) none).1 = (EspErr.fail, none) := by
  refine ⟨?_, ?_, ?_, by decide⟩
  · intro http p
    by_cases h : http 0 ≠ EspErr.ok
    · simp [gemini_llm_model, h]
    · cases p <;> simp [gemini_llm_model, h]
  · intro http parts haveOut len
    by_cases h : http 0 ≠ EspErr.ok <;>
      simp [gemini_llm_with_functions_model, h]
  · intro http resp len
    by_cases h : http 0 ≠ EspErr.ok <;> simp [gemini_stt_model, h]

/-- Claim C6 counterexample: the response buffer for the language-model
endpoint is 96 KB, not 128 KB, and for the speech-synthesis endpoint
192 KB, not 256 KB (`http_post_json_with_auth`, lines 175-179). -/
theorem llm_buffer_size_counterexample :
    response_buffer_size llm_url = 96 * 1024 ∧
    response_buffer_size llm_url ≠ 128 * 1024 ∧
    response_buffer_size tts_url = 192 * 1024 ∧
    response_buffer_size tts_url ≠ 256 * 1024 := by
  decide

/-- Claim C6 (amended): the client sizes its response buffer by endpoint —
192 KB when the URL contains "texttospeech" (speech synthesis), 96 KB
otherwise (both language model and speech recognition) — and on allocation
failure degrades to 32 KB, then 24 KB, then fails with out-of-memory. -/
theorem response_buffer_policy (env : AllocEnv) (url : String) :
    response_buffer_size stt_url = 96 * 1024 ∧
    response_buffer_size llm_url = 96 * 1024 ∧
    response_buffer_size tts_url = 192 * 1024 ∧
    (alloc_primary env (response_buffer_size url) = true →
      http_response_alloc env url = Except.ok (response_buffer_size url)) ∧
    (alloc_primary env (response_buffer_size url) = false →
      env.malloc (32 * 1024) = true →
      http_response_alloc env url = Except.ok (32 * 1024)) ∧
    (alloc_primary env (response_buffer_size url) = false →
      env.malloc (32 * 1024) = false → env.malloc (24 * 1024) = true →
      http_response_alloc env url = Except.ok (24 * 1024)) ∧
    (alloc_primary env (response_buffer_size url) = false →
      env.malloc (32 * 1024) = false → env.malloc (24 * 1024) = false →
      http_response_alloc env url = Except.error EspErr.noMem) := by
  refine ⟨by decide, by decide, by decide, ?_, ?_, ?_, ?_⟩
  · intro h1
    simp [http_response_alloc, h1]
  · intro h1 h2
    simp [http_response_alloc, h1, h2]
  · intro h1 h2 h3
    simp [http_response_alloc, h1, h2, h3]
  · intro h1 h2 h3
    simp [http_response_alloc, h1, h2, h3]

/-- Claim C6 amended-theorem witness: with every allocation failing, the
LLM request fails with out-of-memory after the 96 KB / 32 KB / 24 KB
degradation chain. -/
theorem response_buffer_policy_witness :
    http_response_alloc alloc_none llm_url = Except.error EspErr.noMem :=
  (response_buffer_policy alloc_none llm_url).2.2.2.2.2.2 rfl rfl rfl

/-- Claim C7 (code bug): every task opening a TLS/HTTPS session should hold
the TLS serialization lock for the session's duration, and in particular
the periodic sensor-telemetry publish should POST under the lock. The
Gemini client and the weather fetch do hold the lock across their
sessions, but `sensor_manager_collect_and_publish` opens, performs and
cleans up its HTTPS session with no `tls_mutex_take` at all. -/
theorem sensor_publish_not_under_tls_lock :
    sessionUnderLock gemini_http_post_ops = true ∧
    sessionUnderLock weather_fetch_ops = true ∧
    sessionUnderLock sensor_publish_ops = false := by
  decide

/-- Claim C8 counterexample: the claim says a wake event fires exactly when
at least 3 consecutive speech chunks are followed by at least 2 silence
chunks. The detector counts speech chunks cumulatively — a silence chunk
resets only the silence counter — so the sequence speech, speech, silence,
speech, silence, silence fires even though it never contains 3 consecutive
speech chunks. -/
theorem wake_fires_without_three_consecutive_speech :
    c8_chunks.map chunkIsSpeech = [true, true, false, true, false, false] ∧
    some "hey_nap" ∈ owwProcessChunks c8_chunks ∧
    hasSpeechRun 3 (c8_chunks.map chunkIsSpeech) = false := by
  decide

/-- Claim C8 (amended): a chunk is speech when its RMS exceeds the
threshold (sum of squares > 512 · 25); the detector accumulates speech
chunks (not necessarily consecutive) and fires on a silence chunk exactly
when the accumulated speech count is ≥ 3 and the current silence run
reaches ≥ 2, invoking the callback with `"hey_nap"` and resetting both
counters. In particular a burst of exactly 2 speech chunks followed by any
number of silence chunks never fires, while exactly 3 speech chunks
followed by 2 silence chunks fires on the second silence chunk. -/
theorem wake_fire_characterization :
    (∀ (s : OwwState) (b : Bool),
      (owwStep s b).2 = some "hey_nap" ↔
        b = false ∧ 3 ≤ s.speech_count ∧ 1 ≤ s.silence_count) ∧
    (∀ n : Nat,
      some "hey_nap" ∉
        owwFires (List.replicate 2 true ++ List.replicate n false)) ∧
    owwProcessChunks
        [speech_chunk, speech_chunk, speech_chunk, silence_chunk, silence_chunk]
      = [none, none, none, none, some "hey_nap"] ∧
    chunkIsSpeech speech_chunk = true ∧
    chunkIsSpeech silence_chunk = false := by
  refine ⟨?_, ?_, by decide, by decide, by decide⟩
  · intro s b
    cases b with
    | true => simp [owwStep]
    | false =>
      by_cases hc : 3 ≤ s.speech_count ∧ 2 ≤ s.silence_count + 1
      · simp only [owwStep, Bool.false_eq_true, if_false, if_pos hc]
        constructor
        · intro _
          exact ⟨trivial, hc.1, by omega⟩
        · intro _
          trivial
      · simp only [owwStep, Bool.false_eq_true, if_false, if_neg hc]
        constructor
        · intro h
          simp at h
        · intro h
          exact absurd ⟨h.2.1, by omega⟩ hc
  · intro n
    unfold owwFires
    rw [owwRun_append]
    have h2 : owwRun ⟨0, 0⟩ (List.replicate 2 true) = (⟨2, 0⟩, [none, none]) := by
      decide
    rw [h2]
    simp only [List.mem_append]
    rintro (h | h)
    · simp at h
    · exact owwRun_silence_no_fire 2 (by omega) n 0 h

/-- Claim C9 (confirmed): when the first part of the LLM response carries a
`functionCall` with a string name and the caller passed a `function_call`
output, `gemini_llm_with_functions` fills the output (name, JSON-encoded
args, `is_function_call = true`) and returns `ESP_ERR_NOT_FOUND`; a plain
text part instead returns `ESP_OK` with the text copied into the response
buffer; and the caller `process_voice_command` treats not-found plus
`is_function_call` as the function-call outcome, executing the action
rather than failing. -/
theorem function_call_reply_protocol
    (part : GPart) (rest : List GPart) (fc : GFunctionCall)
    (n a t : String) (len : Nat) (env : VoiceEnv) :
    (part.functionCall = some fc → fc.name = some n → fc.args = some a →
      extract_llm_reply (some (part :: rest)) true len =
        (EspErr.notFound, "", ⟨strncpy_take n 63, strncpy_take a 511, true⟩)) ∧
    (part.functionCall = none → part.text = some t →
      extract_llm_reply (some (part :: rest)) true len =
        (EspErr.ok, strncpy_take t (len - 1), emptyFunctionCallOut)) ∧
    (env.stt.1 = EspErr.ok → env.llm.1 = EspErr.notFound →
      env.llm.2.2.is_function_call = true →
      VCall.actionExec env.llm.2.2.function_name ∈
        (process_voice_command_model env).2) := by
  refine ⟨?_, ?_, ?_⟩
  · intro h1 h2 h3
    simp [extract_llm_reply, h1, h2, h3]
  · intro h1 h2
    simp [extract_llm_reply, extract_text_reply, h1, h2]
  · intro h1 h2 h3
    unfold process_voice_command_model
    rw [h1]
    simp only [ne_eq, not_true_eq_false, if_false, reduceIte]
    rw [if_pos ⟨h2, by simp [h3]⟩]
    split <;> simp [tts_stage] <;> split <;> simp

/-- Claim C9 theorem witness at a concrete function-call exchange and a
concrete text exchange. -/
theorem function_call_reply_protocol_witness :
    extract_llm_reply (some [c9_part_fc]) true 2048 =
      (EspErr.notFound, "",
       ⟨"set_led_color", "\x7b\"red\":0,\"green\":0,\"blue\":255\x7d", true⟩) ∧
    extract_llm_reply (some [c9_part_text]) true 2048 =
      (EspErr.ok, "Sure, done.", emptyFunctionCallOut) ∧
    VCall.actionExec "set_led_color" ∈ (process_voice_command_model c9_env).2 := by
  refine ⟨?_, ?_, ?_⟩
  · exact (function_call_reply_protocol c9_part_fc [] c9_fc "set_led_color"
      "\x7b\"red\":0,\"green\":0,\"blue\":255\x7d" "x" 2048 c9_env).1 rfl rfl rfl
  · exact (function_call_reply_protocol c9_part_text [] c9_fc "n" "a"
      "Sure, done." 2048 c9_env).2.1 rfl rfl
  · exact (function_call_reply_protocol c9_part_text [] c9_fc "n" "a"
      "t" 2048 c9_env).2.2 rfl rfl rfl

/-- Claim C10 (confirmed): executing the pause action on an already-paused
device, or the play action on a device that is not paused, returns
`ESP_OK` and leaves the whole action-manager state — device state, saved
LED snapshot and LED strip — unchanged. -/
theorem pause_play_idempotent_noops (st : AMState) :
    (st.device.paused = true →
      action_manager_execute st Action.pause = (st, EspErr.ok)) ∧
    (st.device.paused = false →
      action_manager_execute st Action.play = (st, EspErr.ok)) := by
  constructor
  · intro h
    simp [action_manager_execute, h]
  · intro h
    simp [action_manager_execute, h]

/-- Claim C10 theorem witness at concrete states. -/
theorem pause_play_idempotent_noops_witness :
    action_manager_execute am_paused_example Action.pause
      = (am_paused_example, EspErr.ok) ∧
    action_manager_execute am_unpaused_example Action.play
      = (am_unpaused_example, EspErr.ok) :=
  ⟨(pause_play_idempotent_noops am_paused_example).1 rfl,
   (pause_play_idempotent_noops am_unpaused_example).2 rfl⟩

end Naphome
